import Mathlib

/-!
Verification of the workany sandbox-provider subsystem.

Shallow embedding of the sandbox provider contract and its two concrete
providers (CodexProvider from the Codex CLI sandbox module, BoxLiteProvider
from src-api/src/extensions/sandbox/boxlite.ts), together with the plugin
definition helper (defineSandboxPlugin) and the runtime-detection helpers.

External effects (process spawning, the BoxLite native module, filesystem
probes, wall-clock time) are modelled as explicit parameters: a provider
operation is a pure function of its inputs, the provider state, and the
outcome the environment produced, returning the result value, the successor
state, and a trace of the observable actions it performed.  JavaScript
truthiness on the `x || d` idiom is modelled explicitly (`jsOrStr`,
`jsOrInt`), since several behaviours of the source hinge on it.
-/

namespace Workany

/-- JS `x || d` for an optional string field: `undefined` and `""` are falsy. -/
def jsOrStr (x : Option String) (d : String) : String :=
  match x with
  | none => d
  | some s => if s = "" then d else s

/-- JS `x || d` where `x` is a plain string: `""` is falsy. -/
def jsOrStr2 (x d : String) : String :=
  if x = "" then d else x

/-- JS `x || d` for an optional integer field: `undefined`, `null` and `0` are falsy. -/
def jsOrInt (x : Option Int) (d : Int) : Int :=
  match x with
  | none => d
  | some c => if c = 0 then d else c

/-- JS truthiness of an optional millisecond count (`timeout ? ... : undefined`). -/
def jsTruthyNat (x : Option Nat) : Bool :=
  match x with
  | none => false
  | some n => n != 0

/-- Lower-case a string character by character (JS `toLowerCase` on ASCII identifiers). -/
def strToLower (s : String) : String :=
  String.mk (s.toList.map Char.toLower)

/-- JS `String.prototype.split` with a single-character separator. -/
def jsSplitChar (c : Char) : List Char → List (List Char)
  | [] => [[]]
  | x :: xs =>
    let r := jsSplitChar c xs
    if x = c then [] :: r
    else (x :: r.headD []) :: r.tail

/-- JS `filePath.split('.').pop() || ''` as used by BaseSandboxProvider. -/
def jsSplitDotPop (p : String) : String :=
  String.mk ((jsSplitChar '.' p.toList).getLastD [])

/-- Node `path.basename` for POSIX paths without a trailing separator:
the longest suffix not containing a slash. -/
def jsBasename (p : String) : String :=
  String.mk ((p.toList.reverse.takeWhile (fun c => c != '/')).reverse)

/-- Node `path.extname`: the portion of the basename from its last dot to the
end; empty when the basename has no dot or only a leading dot. -/
def jsExtname (p : String) : String :=
  let b := (jsBasename p).toList
  let tl := b.reverse.takeWhile (fun c => c != '.')
  if tl.length + 1 < b.length ∨ (tl.length + 1 = b.length ∧ b.head? ≠ some '.') then
    String.mk ('.' :: tl.reverse)
  else ""

/-- Whitespace characters stripped by JS `String.prototype.trim` (the ones
relevant to process output). -/
def jsIsWhitespace (c : Char) : Bool :=
  c = ' ' ∨ c = '\t' ∨ c = '\n' ∨ c = '\r'

/-- JS `String.prototype.trim`: strip leading and trailing whitespace. -/
def jsTrim (s : String) : String :=
  String.mk (((s.toList.dropWhile jsIsWhitespace).reverse.dropWhile jsIsWhitespace).reverse)

/-- JS `String.prototype.startsWith`. -/
def jsStartsWith (s pre : String) : Bool :=
  pre.toList.isPrefixOf s.toList

/-- JS `String.prototype.endsWith`. -/
def jsEndsWith (s suf : String) : Bool :=
  suf.toList.reverse.isPrefixOf s.toList.reverse

-- ============================================================================
-- Data model (src-api/src/core/sandbox/types.ts)
-- ============================================================================

/-- VolumeMount from core/sandbox/types.ts. -/
structure VolumeMount where
  hostPath : String
  guestPath : String
  readOnly : Option Bool
deriving Repr, DecidableEq

/-- SandboxExecOptions from core/sandbox/types.ts. -/
structure SandboxExecOptions where
  command : String
  args : Option (List String)
  cwd : Option String
  env : Option (List (String × String))
  timeout : Option Nat
  image : Option String
deriving Repr, DecidableEq

/-- SandboxExecResult from core/sandbox/types.ts (provider info field omitted:
neither embedded provider populates it). -/
structure SandboxExecResult where
  stdout : String
  stderr : String
  exitCode : Int
  duration : Nat
deriving Repr, DecidableEq

/-- ScriptOptions from core/sandbox/types.ts. -/
structure ScriptOptions where
  args : Option (List String)
  env : Option (List (String × String))
  timeout : Option Nat
  packages : Option (List String)
deriving Repr, DecidableEq

/-- SandboxCapabilities from core/sandbox/types.ts. -/
structure SandboxCapabilities where
  supportsVolumeMounts : Bool
  supportsNetworking : Bool
  isolation : String
  supportedRuntimes : List String
  supportsPooling : Bool
deriving Repr, DecidableEq

-- ============================================================================
-- Plugin system (core/sandbox/plugin.ts)
-- ============================================================================

/-- SandboxProviderMetadata from core/sandbox/plugin.ts (configSchema kept
abstract as a string tag; tags omitted from claims). -/
structure SandboxProviderMetadata where
  type : String
  name : String
  version : String
  description : String
  builtin : Option Bool
  isolation : String
  supportedRuntimes : List String
  supportsVolumeMounts : Bool
  supportsNetworking : Bool
  supportsPooling : Bool
deriving Repr, DecidableEq

/-- SandboxPlugin from core/sandbox/plugin.ts.  `factoryCallable` records the
JS-level fact `typeof plugin.factory === 'function'`, which is what
`defineSandboxPlugin` inspects. -/
structure SandboxPlugin where
  metadata : SandboxProviderMetadata
  factoryCallable : Bool
deriving Repr, DecidableEq

/-- defineSandboxPlugin from core/sandbox/plugin.ts: validates type, name and
factory, throwing (modelled as `Except.error` with the thrown message)
on failure, and returning the plugin itself unchanged on success. -/
def defineSandboxPlugin (plugin : SandboxPlugin) : Except String SandboxPlugin :=
  if plugin.metadata.type = "" then
    Except.error "Sandbox plugin must have a type"
  else if plugin.metadata.name = "" then
    Except.error "Sandbox plugin must have a name"
  else if plugin.factoryCallable = false then
    Except.error "Sandbox plugin must have a factory function"
  else
    Except.ok plugin

/-- BaseSandboxProvider.detectRuntime from core/sandbox/plugin.ts:
`filePath.split('.').pop()?.toLowerCase() || ''` then a switch. -/
def baseDetectRuntime (filePath : String) : String × String :=
  let ext := strToLower (jsSplitDotPop filePath)
  if ext = "py" then ("python", "python:3.11-slim")
  else if ext = "ts" ∨ ext = "mts" then ("bun", "oven/bun:latest")
  else ("node", "node:18-alpine")

-- ============================================================================
-- CodexProvider (extensions/sandbox/codex.ts)
-- ============================================================================

/-- Terminal event of a spawned child process: `close` with the exit code
(`none` models Node's `null` code when the process was killed by a signal),
or the `error` event (spawn failure) with the error message. -/
inductive ProcOutcome where
  | closed (code : Option Int)
  | errored (msg : String)
deriving Repr, DecidableEq

/-- CodexProvider.exec.  Parameters: the detected codex path (`none` when the
CLI was not found), the options, the stdout/stderr the child produced,
whether the timeout timer fired before the terminal event (it sends SIGTERM
and appends the timeout marker to the collected stderr), the terminal process
event, and the elapsed time.  The promise always resolves: the function is
total and never fails. -/
def codexExec (codexPath : Option String) (opts : SandboxExecOptions)
    (outStd outErr : String) (timedOut : Bool) (outcome : ProcOutcome)
    (elapsed : Nat) : SandboxExecResult :=
  match codexPath with
  | none =>
    { stdout := "", stderr := "Codex CLI is not installed", exitCode := 1, duration := elapsed }
  | some _ =>
    let se := if timedOut ∧ jsTruthyNat opts.timeout then outErr ++ "\nExecution timed out" else outErr
    match outcome with
    | ProcOutcome.closed code =>
      { stdout := outStd, stderr := se, exitCode := jsOrInt code 0, duration := elapsed }
    | ProcOutcome.errored msg =>
      { stdout := outStd, stderr := se ++ "\n" ++ msg, exitCode := 1, duration := elapsed }

/-- Runtime detection inside CodexProvider.runScript: default python, `.js`
and `.mjs` to node, `.ts` and `.mts` to `npx tsx`.  Returns the runtime
command, its leading arguments, and the `isPython` flag. -/
def codexDetectRuntime (filePath : String) : String × List String × Bool :=
  let ext := strToLower (jsExtname filePath)
  if ext = ".js" ∨ ext = ".mjs" then ("node", [filePath], false)
  else if ext = ".ts" ∨ ext = ".mts" then ("npx", ["tsx", filePath], false)
  else ("python", [filePath], true)

/-- Observable actions of CodexProvider.runScript. -/
inductive CAct where
  | pipInstall (packages : List String)
  | npmInstall (packages : List String)
  | spawnScript (runtime : String) (runtimeArgs : List String)
deriving Repr, DecidableEq

/-- CodexProvider.runScript.  The package-installation step (execSync of
pip/npm) happens before the sandboxed spawn; its outcome is the
`installOutcome` parameter (`Except.error msg` models the execSync throw).
On installation failure the function returns immediately with exit code 1
and never spawns the script. -/
def codexRunScript (codexPath : Option String) (filePath workDir : String)
    (options : Option ScriptOptions) (installOutcome : Except String Unit)
    (outStd outErr : String) (timedOut : Bool) (outcome : ProcOutcome)
    (elapsed : Nat) : SandboxExecResult × List CAct :=
  match codexPath with
  | none =>
    ({ stdout := ""
       stderr := "Codex CLI is not installed. Install with: npm install -g @openai/codex"
       exitCode := 1, duration := elapsed }, [])
  | some _ =>
    let det := codexDetectRuntime filePath
    let runtime := det.1
    let isPython := det.2.2
    let runtimeArgs := det.2.1 ++ ((options.bind (·.args)).getD [])
    let packages := (options.bind (·.packages)).getD []
    if packages.length > 0 then
      let act := if isPython then CAct.pipInstall packages else CAct.npmInstall packages
      match installOutcome with
      | Except.error errMsg =>
        ({ stdout := "", stderr := "Failed to install packages: " ++ errMsg
           exitCode := 1, duration := elapsed }, [act])
      | Except.ok _ =>
        match outcome with
        | ProcOutcome.closed code =>
          ({ stdout := outStd
             stderr := if timedOut then outErr ++ "\nExecution timed out" else outErr
             exitCode := jsOrInt code 0, duration := elapsed },
           [act, CAct.spawnScript runtime runtimeArgs])
        | ProcOutcome.errored msg =>
          ({ stdout := outStd
             stderr := (if timedOut then outErr ++ "\nExecution timed out" else outErr) ++ "\n" ++ msg
             exitCode := 1, duration := elapsed },
           [act, CAct.spawnScript runtime runtimeArgs])
    else
      match outcome with
      | ProcOutcome.closed code =>
        ({ stdout := outStd
           stderr := if timedOut then outErr ++ "\nExecution timed out" else outErr
           exitCode := jsOrInt code 0, duration := elapsed },
         [CAct.spawnScript runtime runtimeArgs])
      | ProcOutcome.errored msg =>
        ({ stdout := outStd
           stderr := (if timedOut then outErr ++ "\nExecution timed out" else outErr) ++ "\n" ++ msg
           exitCode := 1, duration := elapsed },
         [CAct.spawnScript runtime runtimeArgs])

/-- CodexProvider state: the detected codex path and the configured volumes. -/
structure CodexState where
  codexPath : Option String
  volumes : List VolumeMount
deriving Repr, DecidableEq

/-- CodexProvider.isAvailable: re-detects the codex path (the `found`
parameter models `getCodexPath()`) and reports whether it was found. -/
def codexIsAvailable (found : Option String) (s : CodexState) : Bool × CodexState :=
  (found.isSome, { s with codexPath := found })

/-- CodexProvider.init: re-detects the codex path, logs a warning when it is
missing, and always completes successfully — it never throws. -/
def codexInit (found : Option String) (s : CodexState) : Except String CodexState :=
  Except.ok { s with codexPath := found }

/-- CodexProvider.stop: `// No persistent state to clean up` — releases
nothing. -/
def codexStop (s : CodexState) : CodexState × List CAct :=
  (s, [])

/-- CodexProvider.shutdown: `return this.stop()`. -/
def codexShutdown (s : CodexState) : CodexState × List CAct :=
  codexStop s

-- ============================================================================
-- BoxLite module-level cache (extensions/sandbox/boxlite.ts, lines 24-318)
-- ============================================================================

/-- Module-level mutable state of boxlite.ts: whether the BoxLite module was
loaded (`boxliteModuleLoaded`), whether the runtime probe already ran
(`boxliteRuntimeVerified`), and the probe's error (`boxliteRuntimeError`,
`none` meaning the probe succeeded). -/
structure BLModState where
  boxliteModuleLoaded : Bool
  boxliteRuntimeVerified : Bool
  boxliteRuntimeError : Option String
deriving Repr, DecidableEq

/-- The module-level initializers of boxlite.ts. -/
def initBLModState : BLModState :=
  { boxliteModuleLoaded := false, boxliteRuntimeVerified := false, boxliteRuntimeError := none }

/-- The host environment the BoxLite loader probes: whether the native module
(or npm package) can be loaded, and the outcome of the expensive test-VM
probe (`Except.error msg` models a throw during box creation or the test
command, `Except.ok c` a test command completing with exit code `c`). -/
structure BLEnv where
  moduleLoadable : Bool
  probeOutcome : Except String Int
deriving Repr

/-- loadBoxLiteModule: returns true immediately when already loaded,
otherwise attempts the load and records success. -/
def loadBoxLiteModule (env : BLEnv) (s : BLModState) : Bool × BLModState :=
  if s.boxliteModuleLoaded then (true, s)
  else if env.moduleLoadable then (true, { s with boxliteModuleLoaded := true })
  else (false, s)

/-- verifyBoxLiteRuntime: returns the cached result when
`boxliteRuntimeVerified` is set; otherwise runs the expensive probe
(creating and exercising a minimal test VM) and caches success or failure.
The third component counts how many times the expensive probe actually ran
(0 or 1). -/
def verifyBoxLiteRuntime (env : BLEnv) (s : BLModState) : Bool × BLModState × Nat :=
  if s.boxliteRuntimeVerified then
    (s.boxliteRuntimeError.isNone, s, 0)
  else if ¬ s.boxliteModuleLoaded then
    (false,
     { s with boxliteRuntimeVerified := true, boxliteRuntimeError := some "BoxLite module not loaded" },
     0)
  else
    match env.probeOutcome with
    | Except.ok c =>
      if c = 0 then
        (true, { s with boxliteRuntimeVerified := true, boxliteRuntimeError := none }, 1)
      else
        (false,
         { s with boxliteRuntimeVerified := true
                  boxliteRuntimeError := some ("Test command failed with exit code " ++ toString c) },
         1)
    | Except.error msg =>
      (false, { s with boxliteRuntimeVerified := true, boxliteRuntimeError := some msg }, 1)

/-- loadBoxLite: full availability check — module load, then runtime
verification. -/
def loadBoxLite (env : BLEnv) (s : BLModState) : Bool × BLModState × Nat :=
  let r := loadBoxLiteModule env s
  if ¬ r.1 then (false, r.2, 0)
  else verifyBoxLiteRuntime env r.2

/-- BoxLiteProvider.isAvailable: delegates to loadBoxLite. -/
def boxliteIsAvailable (env : BLEnv) (s : BLModState) : Bool × BLModState × Nat :=
  loadBoxLite env s

-- ============================================================================
-- BoxLiteProvider instance state and operations
-- ============================================================================

/-- The BoxLiteProviderConfig fields merged by init. -/
structure BLConfig where
  memoryMib : Option Nat
  cpus : Option Nat
  workDir : Option String
  autoRemove : Option Bool
deriving Repr, DecidableEq

/-- The field initializer of BoxLiteProvider.config. -/
def defaultBLConfig : BLConfig :=
  { memoryMib := some 1024, cpus := some 2, workDir := some "/workspace", autoRemove := some true }

/-- JS object-spread merge `{ ...this.config, ...config }`: fields present in
the update win. -/
def mergeBLConfig (old new : BLConfig) : BLConfig :=
  { memoryMib := new.memoryMib <|> old.memoryMib
    cpus := new.cpus <|> old.cpus
    workDir := new.workDir <|> old.workDir
    autoRemove := new.autoRemove <|> old.autoRemove }

/-- BoxLiteProvider instance state: the config, the configured volumes, the
current box (by identifier, `none` when no box is held), the image of the
current box, and a counter supplying identifiers for newly created boxes. -/
structure BLProvState where
  config : BLConfig
  volumes : List VolumeMount
  box : Option Nat
  currentImage : String
  nextId : Nat
deriving Repr, DecidableEq

/-- The field initializers of a fresh BoxLiteProvider. -/
def initBLProvState : BLProvState :=
  { config := defaultBLConfig, volumes := [], box := none
    currentImage := "node:18-alpine", nextId := 0 }

/-- Observable actions of a BoxLiteProvider: stopping a box, creating a box
with an image, the `echo Box ready` readiness check, the npm package
installation exec, the script-run exec, the file enumeration exec, the
per-file base64 read, and a write to a host file. -/
inductive BAct where
  | stopBox (id : Nat)
  | createBox (id : Nat) (image : String)
  | boxReadyCheck (id : Nat)
  | npmInstallIn (id : Nat) (packages : List String)
  | execIn (id : Nat) (command : String)
  | runScriptIn (id : Nat) (runtime : String) (scriptPath : String)
  | listFilesIn (id : Nat)
  | catFileIn (id : Nat) (file : String)
  | hostWrite (file : String)
deriving Repr, DecidableEq

/-- BoxLiteProvider.getOrCreateBox: reuses the current box when its image
matches, otherwise stops the current box (when present) and creates a new
one, waiting for readiness.  When the module is not loaded (`SimpleBox`
null) it throws `BoxLite is not loaded`; note the source stops the old box
before that check. -/
def getOrCreateBox (moduleLoaded : Bool) (image : String) (s : BLProvState) :
    BLProvState × List BAct × Except String Nat :=
  match s.box with
  | some b =>
    if s.currentImage = image then (s, [], Except.ok b)
    else if ¬ moduleLoaded then
      (s, [BAct.stopBox b], Except.error "BoxLite is not loaded")
    else
      let nid := s.nextId
      ({ s with box := some nid, currentImage := image, nextId := s.nextId + 1 },
       [BAct.stopBox b, BAct.createBox nid image, BAct.boxReadyCheck nid],
       Except.ok nid)
  | none =>
    if ¬ moduleLoaded then
      (s, [], Except.error "BoxLite is not loaded")
    else
      let nid := s.nextId
      ({ s with box := some nid, currentImage := image, nextId := s.nextId + 1 },
       [BAct.createBox nid image, BAct.boxReadyCheck nid],
       Except.ok nid)

/-- The error object caught by BoxLiteProvider.exec's catch block, cast to
`{stdout?, stderr?, exitCode?}`; `display` is `String(error)`. -/
structure JsErr where
  stdoutF : Option String
  stderrF : Option String
  exitCodeF : Option Int
  display : String
deriving Repr, DecidableEq

/-- Result of a `box.exec` call (SimpleBox.exec). -/
structure BoxRes where
  stdout : String
  stderr : String
  exitCode : Int
deriving Repr, DecidableEq

/-- BoxLiteProvider.exec: resolves the target image, gets or creates the box,
runs the command through `sh -c`, and maps both the success and the caught
error into a SandboxExecResult — it never throws. -/
def boxliteExec (moduleLoaded : Bool) (opts : SandboxExecOptions)
    (runOutcome : Except JsErr BoxRes) (s : BLProvState) (elapsed : Nat) :
    SandboxExecResult × BLProvState × List BAct :=
  let targetImage := jsOrStr opts.image (jsOrStr2 s.currentImage "node:18-alpine")
  let g := getOrCreateBox moduleLoaded targetImage s
  match g.2.2 with
  | Except.error m =>
    ({ stdout := "", stderr := "Error: " ++ m, exitCode := 1, duration := elapsed },
     g.1, g.2.1)
  | Except.ok bid =>
    match runOutcome with
    | Except.ok res =>
      ({ stdout := jsOrStr2 res.stdout "", stderr := jsOrStr2 res.stderr ""
         exitCode := jsOrInt (some res.exitCode) 0, duration := elapsed },
       g.1, g.2.1 ++ [BAct.execIn bid opts.command])
    | Except.error err =>
      ({ stdout := jsOrStr err.stdoutF "", stderr := jsOrStr err.stderrF err.display
         exitCode := jsOrInt err.exitCodeF 1, duration := elapsed },
       g.1, g.2.1 ++ [BAct.execIn bid opts.command])

/-- Runtime/image detection inside BoxLiteProvider.runScript
(`path.extname(filePath).toLowerCase()` then a switch). -/
def boxliteDetectRuntime (filePath : String) : String × String :=
  let ext := strToLower (jsExtname filePath)
  if ext = ".py" then ("python:3.11-slim", "python")
  else if ext = ".ts" ∨ ext = ".mts" then ("oven/bun:latest", "bun")
  else ("node:18-alpine", "node")

/-- The copy-back filter of BoxLiteProvider.runScript: the trimmed stdout of
the in-VM file enumeration is split into lines, and only non-empty lines
that start with `workDir` and do not end with the script's basename are
synchronized. -/
def syncFiles (workDir scriptBasename listStdout : String) : List String :=
  ((jsSplitChar '\n' (jsTrim listStdout).toList).map String.mk).filter
    (fun f => f ≠ "" ∧ jsStartsWith f workDir ∧ ¬ jsEndsWith f scriptBasename)

/-- BoxLiteProvider.runScript: detects the runtime/image, mounts `workDir` at
the same path, stops any current box, creates a fresh box, installs npm
packages when declared and the runtime is not python (ignoring the install
exit code), runs the script, and copies produced files back to the host:
each enumerated file passing the sync filter is read with base64 and — when
that read had exit code 0 and non-empty output (`catOk`) — written to the
identical host path. -/
def boxliteRunScript (moduleLoaded : Bool) (filePath workDir : String)
    (options : Option ScriptOptions) (runResult : BoxRes)
    (listStdout : String) (catOk : String → Bool) (s : BLProvState)
    (elapsed : Nat) :
    Except String SandboxExecResult × BLProvState × List BAct :=
  let det := boxliteDetectRuntime filePath
  let image := det.1
  let runtime := det.2
  let s := { s with volumes := [{ hostPath := workDir, guestPath := workDir, readOnly := some false }] }
  let stopped :=
    match s.box with
    | some b => ({ s with box := none }, [BAct.stopBox b])
    | none => (s, ([] : List BAct))
  let g := getOrCreateBox moduleLoaded image stopped.1
  match g.2.2 with
  | Except.error m => (Except.error m, g.1, stopped.2 ++ g.2.1)
  | Except.ok bid =>
    let packages := (options.bind (·.packages)).getD []
    let installTrace :=
      if packages.length > 0 ∧ runtime ≠ "python" then [BAct.npmInstallIn bid packages]
      else []
    let scriptBasename := jsBasename filePath
    let syncTrace :=
      (syncFiles workDir scriptBasename listStdout).flatMap
        (fun f => BAct.catFileIn bid f :: (if catOk f then [BAct.hostWrite f] else []))
    (Except.ok
      { stdout := jsOrStr2 runResult.stdout "", stderr := jsOrStr2 runResult.stderr ""
        exitCode := jsOrInt (some runResult.exitCode) 0, duration := elapsed },
     g.1,
     stopped.2 ++ g.2.1 ++ installTrace ++
       [BAct.runScriptIn bid runtime filePath, BAct.listFilesIn bid] ++ syncTrace)

/-- BoxLiteProvider.init: merges the config, checks availability, and throws
`BoxLite is not available on this platform` when unavailable. -/
def boxliteInit (env : BLEnv) (gs : BLModState) (config : Option BLConfig)
    (s : BLProvState) : Except String (BLModState × BLProvState) :=
  let s :=
    match config with
    | some c => { s with config := mergeBLConfig s.config c }
    | none => s
  let a := boxliteIsAvailable env gs
  if a.1 then Except.ok (a.2.1, s)
  else Except.error "BoxLite is not available on this platform"

/-- BoxLiteProvider.stop: stops the current box when present (catching stop
errors) and clears it; a no-op when no box is held. -/
def boxliteStop (s : BLProvState) : BLProvState × List BAct :=
  match s.box with
  | some b => ({ s with box := none }, [BAct.stopBox b])
  | none => (s, [])

/-- BoxLiteProvider.shutdown: `return this.stop()`. -/
def boxliteShutdown (s : BLProvState) : BLProvState × List BAct :=
  boxliteStop s

-- ============================================================================
-- Live-box accounting for the single-live-box invariant
-- ============================================================================

/-- Effect of one action on the set of live boxes: creation adds the box,
stopping removes it, every other action leaves it unchanged. -/
def applyBAct (live : List Nat) (a : BAct) : List Nat :=
  match a with
  | BAct.createBox id _ => live ++ [id]
  | BAct.stopBox id => live.erase id
  | _ => live

/-- The largest number of simultaneously live boxes along a trace, starting
from the given live set (the set itself is counted, as is every
intermediate state). -/
def maxLive (live : List Nat) : List BAct → Nat
  | [] => live.length
  | a :: tr => max live.length (maxLive (applyBAct live a) tr)

/-- The live set left over after a trace. -/
def liveAfter (live : List Nat) (tr : List BAct) : List Nat :=
  tr.foldl applyBAct live

-- ============================================================================
-- Concrete plugin data (extensions/sandbox/codex.ts, CODEX_CLI_METADATA)
-- ============================================================================

/-- CODEX_CLI_METADATA from extensions/sandbox/codex.ts. -/
def CODEX_CLI_METADATA : SandboxProviderMetadata :=
  { type := "codex", name := "Codex Sandbox", version := "1.0.0"
    description := "Uses OpenAI Codex's sandbox feature for isolated script execution."
    builtin := none, isolation := "process"
    supportedRuntimes := ["node", "python", "bun"]
    supportsVolumeMounts := false, supportsNetworking := false, supportsPooling := false }

/-- The plugin value passed to defineSandboxPlugin for the codex provider
(`factory: () => createCodexProvider()` is a function, hence callable). -/
def codexPluginDef : SandboxPlugin :=
  { metadata := CODEX_CLI_METADATA, factoryCallable := true }

-- ============================================================================
-- Theorems
-- ============================================================================

/-- Claim C2 (code_bug evidence): `exec` with a timeout smaller than the
command's natural runtime sends SIGTERM on expiry and appends the timeout
marker to stderr, but the `close` event of a signal-killed process carries a
null exit code, and `exitCode: code || 0` maps it to 0 — the returned
exitCode is zero, contradicting the claimed non-zero exit code. -/
theorem codex_exec_timeout_zero_exitCode :
    (codexExec (some "/usr/local/bin/codex")
        { command := "sleep", args := some ["5"], cwd := none, env := none
          timeout := some 50, image := none }
        "" "" true (ProcOutcome.closed none) 60).exitCode = 0 ∧
    (codexExec (some "/usr/local/bin/codex")
        { command := "sleep", args := some ["5"], cwd := none, env := none
          timeout := some 50, image := none }
        "" "" true (ProcOutcome.closed none) 60).stderr = "\nExecution timed out" := by
  constructor <;> rfl

/-- Claim C4 (counterexample): CodexProvider violates the claim — with no
codex binary found, `isAvailable` is false, yet `init` completes
successfully (it only logs a warning), so init on an unavailable provider
does not fail. -/
theorem codex_init_succeeds_when_unavailable :
    (codexIsAvailable none { codexPath := none, volumes := [] }).1 = false ∧
    codexInit none { codexPath := none, volumes := [] } =
      Except.ok { codexPath := none, volumes := [] } := by
  constructor <;> rfl

/-- Claim C4 (amended): BoxLiteProvider.init fails with the unavailability
error whenever its availability check reports false, while CodexProvider.init
never fails — it completes successfully even when the codex CLI is missing. -/
theorem init_unavailable_behaviour (env : BLEnv) (gs : BLModState)
    (cfg : Option BLConfig) (s : BLProvState)
    (h : (boxliteIsAvailable env gs).1 = false) :
    boxliteInit env gs cfg s = Except.error "BoxLite is not available on this platform" ∧
    ∀ (found : Option String) (cs : CodexState), ∃ cs', codexInit found cs = Except.ok cs' := by
  constructor
  · simp [boxliteInit, h]
  · intro found cs
    exact ⟨_, rfl⟩

/-- Witness for the amended C4 theorem at a host where the BoxLite module
cannot be loaded. -/
theorem init_unavailable_behaviour_witness :
    boxliteInit { moduleLoadable := false, probeOutcome := Except.ok 0 }
        initBLModState none initBLProvState =
      Except.error "BoxLite is not available on this platform" :=
  (init_unavailable_behaviour { moduleLoadable := false, probeOutcome := Except.ok 0 }
    initBLModState none initBLProvState (by decide)).1

/-- Claim C5: defineSandboxPlugin rejects, at registration time, any plugin
with an empty metadata.type, an empty metadata.name, or a non-callable
factory, by throwing immediately; a plugin passing validation is returned
unchanged. -/
theorem defineSandboxPlugin_validation (plugin : SandboxPlugin) :
    (plugin.metadata.type = "" ∨ plugin.metadata.name = "" ∨ plugin.factoryCallable = false →
      ∃ msg, defineSandboxPlugin plugin = Except.error msg) ∧
    (plugin.metadata.type ≠ "" → plugin.metadata.name ≠ "" → plugin.factoryCallable = true →
      defineSandboxPlugin plugin = Except.ok plugin) := by
  constructor
  · intro h
    by_cases ht : plugin.metadata.type = ""
    · exact ⟨"Sandbox plugin must have a type", by simp [defineSandboxPlugin, ht]⟩
    · by_cases hn : plugin.metadata.name = ""
      · exact ⟨"Sandbox plugin must have a name", by simp [defineSandboxPlugin, ht, hn]⟩
      · have hf : plugin.factoryCallable = false := by tauto
        exact ⟨"Sandbox plugin must have a factory function",
          by simp [defineSandboxPlugin, ht, hn, hf]⟩
  · intro ht hn hf
    simp [defineSandboxPlugin, ht, hn, hf]

/-- Witness for C5: the codex plugin definition passes validation and is
returned unchanged; the same plugin with its type blanked out is rejected. -/
theorem defineSandboxPlugin_validation_witness :
    defineSandboxPlugin codexPluginDef = Except.ok codexPluginDef ∧
    ∃ msg, defineSandboxPlugin
        { codexPluginDef with metadata := { CODEX_CLI_METADATA with type := "" } } =
      Except.error msg :=
  ⟨(defineSandboxPlugin_validation codexPluginDef).2 (by decide) (by decide) (by decide),
   (defineSandboxPlugin_validation
      { codexPluginDef with metadata := { CODEX_CLI_METADATA with type := "" } }).1
     (Or.inl (by decide))⟩

/-- Claim C6: stop is idempotent — the second stop on the same BoxLite
instance releases nothing and changes nothing; shutdown is exactly stop on
both providers, and CodexProvider.stop releases nothing at all. -/
theorem stop_shutdown_idempotent (s : BLProvState) (cs : CodexState) :
    (boxliteStop (boxliteStop s).1).2 = [] ∧
    (boxliteStop (boxliteStop s).1).1 = (boxliteStop s).1 ∧
    boxliteShutdown s = boxliteStop s ∧
    (codexStop cs).2 = [] ∧
    codexShutdown cs = codexStop cs := by
  cases hb : s.box <;>
    simp [boxliteStop, boxliteShutdown, hb, codexStop, codexShutdown]

/-- Claim C3: starting from the module's initial cache state, a second
isAvailable call on the boxlite provider returns the same boolean as the
first, the expensive runtime probe runs at most once across both calls, the
cache state is unchanged by the second call, and a verified cache entry is
never invalidated — re-verifying returns the cached boolean with zero probe
runs. -/
theorem boxlite_isAvailable_probe_cached (env : BLEnv) :
    ((boxliteIsAvailable env (boxliteIsAvailable env initBLModState).2.1).1 =
      (boxliteIsAvailable env initBLModState).1) ∧
    ((boxliteIsAvailable env initBLModState).2.2 +
      (boxliteIsAvailable env (boxliteIsAvailable env initBLModState).2.1).2.2 ≤ 1) ∧
    ((boxliteIsAvailable env (boxliteIsAvailable env initBLModState).2.1).2.1 =
      (boxliteIsAvailable env initBLModState).2.1) ∧
    (∀ s : BLModState,
      verifyBoxLiteRuntime env (verifyBoxLiteRuntime env s).2.1 =
        ((verifyBoxLiteRuntime env s).1, (verifyBoxLiteRuntime env s).2.1, 0)) := by
  rcases env with ⟨ml, po⟩
  have hmain : ∀ s : BLModState,
      verifyBoxLiteRuntime ⟨ml, po⟩ (verifyBoxLiteRuntime ⟨ml, po⟩ s).2.1 =
        ((verifyBoxLiteRuntime ⟨ml, po⟩ s).1, (verifyBoxLiteRuntime ⟨ml, po⟩ s).2.1, 0) := by
    intro s
    rcases s with ⟨sml, sv, se⟩
    cases sv
    all_goals cases sml
    all_goals rcases po with m | c
    all_goals first
      | (simp [verifyBoxLiteRuntime]; done)
      | (rcases eq_or_ne c 0 with hc | hc <;> simp [verifyBoxLiteRuntime, hc])
  refine ⟨?_, ?_, ?_, hmain⟩
  all_goals cases ml
  all_goals rcases po with m | c
  all_goals first
    | (simp [boxliteIsAvailable, loadBoxLite, loadBoxLiteModule,
        verifyBoxLiteRuntime, initBLModState]; done)
    | (rcases eq_or_ne c 0 with hc | hc <;>
        simp [boxliteIsAvailable, loadBoxLite, loadBoxLiteModule,
          verifyBoxLiteRuntime, initBLModState, hc])

-- ============================================================================
-- Helper lemmas
-- ============================================================================

/-- A string extended by a newline and a message is never empty. -/
lemma append_newline_ne_empty (s m : String) : s ++ "\n" ++ m ≠ "" := by
  intro h
  have hl := congrArg String.length h
  have h1 : ("\n" : String).length = 1 := rfl
  simp [String.length_append, h1] at hl

/-- `jsBasename p` is always a suffix of `p` in the sense of `jsEndsWith`. -/
lemma jsEndsWith_basename (p : String) : jsEndsWith p (jsBasename p) = true := by
  unfold jsEndsWith jsBasename
  have hda : (String.mk ((p.toList.reverse.takeWhile (fun c => c != '/')).reverse)).toList =
      (p.toList.reverse.takeWhile (fun c => c != '/')).reverse := rfl
  rw [hda, List.reverse_reverse, List.isPrefixOf_iff_prefix]
  exact List.takeWhile_prefix _

/-- Actions that neither create nor stop a box. -/
def neutralBAct : BAct → Bool
  | BAct.createBox _ _ => false
  | BAct.stopBox _ => false
  | _ => true

lemma applyBAct_neutral (live : List Nat) {a : BAct} (h : neutralBAct a = true) :
    applyBAct live a = live := by
  cases a <;> simp [neutralBAct] at h <;> rfl

lemma length_le_maxLive (live : List Nat) (tr : List BAct) :
    live.length ≤ maxLive live tr := by
  cases tr <;> simp [maxLive]

lemma liveAfter_length_le_maxLive (live : List Nat) (tr : List BAct) :
    (liveAfter live tr).length ≤ maxLive live tr := by
  induction tr generalizing live with
  | nil => simp [liveAfter, maxLive]
  | cons a tr ih =>
    have : liveAfter live (a :: tr) = liveAfter (applyBAct live a) tr := rfl
    rw [this, maxLive]
    exact le_max_of_le_right (ih _)

lemma maxLive_append (live : List Nat) (l1 l2 : List BAct) :
    maxLive live (l1 ++ l2) = max (maxLive live l1) (maxLive (liveAfter live l1) l2) := by
  induction l1 generalizing live with
  | nil =>
    have h0 : liveAfter live [] = live := rfl
    simp [maxLive, h0]
    exact length_le_maxLive _ _
  | cons a l1 ih =>
    have h1 : liveAfter live (a :: l1) = liveAfter (applyBAct live a) l1 := rfl
    rw [List.cons_append, maxLive, ih, maxLive, h1, max_assoc]

lemma maxLive_neutral (live : List Nat) (l : List BAct)
    (h : ∀ a ∈ l, neutralBAct a = true) :
    maxLive live l = live.length := by
  induction l with
  | nil => rfl
  | cons a l ih =>
    rw [maxLive, applyBAct_neutral live (h a (List.mem_cons_self a l)),
      ih (fun b hb => h b (List.mem_cons_of_mem a hb)), max_self]

lemma maxLive_append_neutral (live : List Nat) (l1 l2 : List BAct)
    (h : ∀ a ∈ l2, neutralBAct a = true) :
    maxLive live (l1 ++ l2) = maxLive live l1 := by
  rw [maxLive_append, maxLive_neutral _ _ h]
  exact max_eq_left (liveAfter_length_le_maxLive _ _)

/-- Decomposition of membership in the copy-back part of the runScript trace. -/
lemma mem_sync_trace {bid : Nat} {w sb ls : String} {catOk : String → Bool} {a : BAct}
    (h : a ∈ (syncFiles w sb ls).flatMap
      (fun f => BAct.catFileIn bid f :: (if catOk f then [BAct.hostWrite f] else []))) :
    ∃ f ∈ syncFiles w sb ls, a = BAct.catFileIn bid f ∨ a = BAct.hostWrite f := by
  rw [List.mem_flatMap] at h
  obtain ⟨f, hf, ha⟩ := h
  refine ⟨f, hf, ?_⟩
  rcases List.mem_cons.mp ha with ha | ha
  · exact Or.inl ha
  · right
    split at ha
    · simpa using ha
    · simp at ha

/-- Every action in the copy-back part of the trace is live-neutral. -/
lemma sync_trace_neutral {bid : Nat} {w sb ls : String} {catOk : String → Bool} {a : BAct}
    (h : a ∈ (syncFiles w sb ls).flatMap
      (fun f => BAct.catFileIn bid f :: (if catOk f then [BAct.hostWrite f] else []))) :
    neutralBAct a = true := by
  obtain ⟨f, _, hf | hf⟩ := mem_sync_trace h <;> subst hf <;> rfl

/-- Membership in the filtered copy-back list gives the filter's guarantees. -/
lemma mem_syncFiles {w sb ls f : String} (h : f ∈ syncFiles w sb ls) :
    f ≠ "" ∧ jsStartsWith f w = true ∧ jsEndsWith f sb = false := by
  have := List.mem_filter.mp h
  have hp := of_decide_eq_true this.2
  exact ⟨hp.1, hp.2.1, by simpa using hp.2.2⟩

-- ============================================================================
-- Claim theorems (continued)
-- ============================================================================

/-- Claim C1: exec always returns an ExecResult (the embedding is a total
function — no failure path), and on the internal failure modes the result
carries a non-zero exitCode and non-empty stderr: codex binary missing,
codex spawn failure (`error` event), BoxLite module missing on a fresh
provider, and any error thrown inside BoxLite's exec that carries a
printable representation. -/
theorem exec_internal_failure_populates_result :
    (∀ opts outStd outErr t oc e,
      (codexExec none opts outStd outErr t oc e).exitCode = 1 ∧
      (codexExec none opts outStd outErr t oc e).stderr ≠ "") ∧
    (∀ cp opts outStd outErr t m e,
      (codexExec (some cp) opts outStd outErr t (ProcOutcome.errored m) e).exitCode = 1 ∧
      (codexExec (some cp) opts outStd outErr t (ProcOutcome.errored m) e).stderr ≠ "") ∧
    (∀ opts ro e,
      (boxliteExec false opts ro initBLProvState e).1.exitCode = 1 ∧
      (boxliteExec false opts ro initBLProvState e).1.stderr ≠ "") ∧
    (∀ (err : JsErr), err.display ≠ "" → ∀ ml opts s e,
      (boxliteExec ml opts (Except.error err) s e).1.exitCode ≠ 0 ∧
      (boxliteExec ml opts (Except.error err) s e).1.stderr ≠ "") := by
  refine ⟨?_, ?_, ?_, ?_⟩
  · intro opts outStd outErr t oc e
    exact ⟨rfl, by simp [codexExec]⟩
  · intro cp opts outStd outErr t m e
    exact ⟨rfl, append_newline_ne_empty _ m⟩
  · intro opts ro e
    constructor <;> simp [boxliteExec, getOrCreateBox, initBLProvState]
  · intro err hdisp ml opts s e
    rcases hgg : getOrCreateBox ml (jsOrStr opts.image (jsOrStr2 s.currentImage "node:18-alpine")) s
      with ⟨s1, tr, r⟩
    rcases r with m | bid
    · refine ⟨by simp [boxliteExec, hgg], ?_⟩
      simp only [boxliteExec, hgg]
      intro h
      have hl := congrArg String.length h
      have h1 : ("Error: " : String).length = 7 := rfl
      simp [String.length_append, h1] at hl
    · constructor
      · simp only [boxliteExec, hgg]
        show jsOrInt err.exitCodeF 1 ≠ 0
        unfold jsOrInt
        rcases err.exitCodeF with _ | c
        · simp
        · rcases eq_or_ne c 0 with hc | hc <;> simp [hc]
      · simp only [boxliteExec, hgg]
        show jsOrStr err.stderrF err.display ≠ ""
        unfold jsOrStr
        rcases err.stderrF with _ | str
        · exact hdisp
        · rcases eq_or_ne str "" with hs | hs <;> simp [hs, hdisp]

/-- Witness for C1 at a concrete spawn failure caught inside BoxLite's exec. -/
theorem exec_internal_failure_populates_result_witness :
    (boxliteExec true
        { command := "echo", args := some ["hi"], cwd := none, env := none
          timeout := none, image := none }
        (Except.error { stdoutF := none, stderrF := none, exitCodeF := none
                        display := "Error: spawn ENOENT" })
        initBLProvState 3).1.exitCode ≠ 0 ∧
    (boxliteExec true
        { command := "echo", args := some ["hi"], cwd := none, env := none
          timeout := none, image := none }
        (Except.error { stdoutF := none, stderrF := none, exitCodeF := none
                        display := "Error: spawn ENOENT" })
        initBLProvState 3).1.stderr ≠ "" :=
  exec_internal_failure_populates_result.2.2.2
    { stdoutF := none, stderrF := none, exitCodeF := none, display := "Error: spawn ENOENT" }
    (by decide) true
    { command := "echo", args := some ["hi"], cwd := none, env := none
      timeout := none, image := none }
    initBLProvState 3

/-- Claim C7: runScript selects the runtime solely from the file extension —
`.py` runs with python, `.js`/`.mjs` with node, `.ts`/`.mts` with a
TypeScript-capable runtime (npx tsx for codex, bun for boxlite and the base
helper) — and any runtime actually spawned by a runScript call equals the
one detected from the file path alone, for every workDir and options. -/
theorem runScript_runtime_from_extension :
    (∀ p, strToLower (jsExtname p) = ".py" →
      (codexDetectRuntime p).1 = "python" ∧ (boxliteDetectRuntime p).2 = "python") ∧
    (∀ p, strToLower (jsExtname p) = ".js" ∨ strToLower (jsExtname p) = ".mjs" →
      (codexDetectRuntime p).1 = "node" ∧ (boxliteDetectRuntime p).2 = "node") ∧
    (∀ p, strToLower (jsExtname p) = ".ts" ∨ strToLower (jsExtname p) = ".mts" →
      (codexDetectRuntime p).1 = "npx" ∧ (codexDetectRuntime p).2.1.head? = some "tsx" ∧
      (boxliteDetectRuntime p).2 = "bun") ∧
    (∀ p, strToLower (jsSplitDotPop p) = "py" →
      (baseDetectRuntime p).1 = "python") ∧
    (∀ p, strToLower (jsSplitDotPop p) = "js" ∨ strToLower (jsSplitDotPop p) = "mjs" →
      (baseDetectRuntime p).1 = "node") ∧
    (∀ p, strToLower (jsSplitDotPop p) = "ts" ∨ strToLower (jsSplitDotPop p) = "mts" →
      (baseDetectRuntime p).1 = "bun") ∧
    (∀ cp p w o i outStd outErr t oc e r ra,
      CAct.spawnScript r ra ∈ (codexRunScript (some cp) p w o i outStd outErr t oc e).2 →
      r = (codexDetectRuntime p).1) ∧
    (∀ ml p w o rr ls catOk s e bid r sp,
      BAct.runScriptIn bid r sp ∈ (boxliteRunScript ml p w o rr ls catOk s e).2.2 →
      r = (boxliteDetectRuntime p).2) := by
  refine ⟨?_, ?_, ?_, ?_, ?_, ?_, ?_, ?_⟩
  · intro p h
    constructor <;> simp [codexDetectRuntime, boxliteDetectRuntime, h]
  · intro p h
    rcases h with h | h <;>
      (constructor <;> simp [codexDetectRuntime, boxliteDetectRuntime, h])
  · intro p h
    rcases h with h | h <;>
      (refine ⟨?_, ?_, ?_⟩ <;> simp [codexDetectRuntime, boxliteDetectRuntime, h])
  · intro p h
    simp [baseDetectRuntime, h]
  · intro p h
    rcases h with h | h <;> simp [baseDetectRuntime, h]
  · intro p h
    rcases h with h | h <;> simp [baseDetectRuntime, h]
  · intro cp p w o i outStd outErr t oc e r ra hmem
    by_cases hp : (((o.bind (fun x => x.packages)).getD []).length > 0)
    · rcases i with m | u
      · simp [codexRunScript, hp] at hmem
        split at hmem <;> simp_all
      · rcases oc with code | m2 <;>
          (simp [codexRunScript, hp] at hmem
           rcases hmem with hmem | hmem
           · split at hmem <;> simp_all
           · simp_all)
    · rcases oc with code | m2 <;> (simp [codexRunScript, hp] at hmem; simp_all)
  · intro ml p w o rr ls catOk s e bid r sp hmem
    rcases hb : s.box with _ | b <;> cases ml <;>
      simp [boxliteRunScript, getOrCreateBox, hb, List.mem_flatMap, syncFiles] at hmem <;>
      aesop

/-- Witness for C7 at concrete script paths of each extension. -/
theorem runScript_runtime_from_extension_witness :
    (codexDetectRuntime "/w/a.py").1 = "python" ∧
    (codexDetectRuntime "/w/a.mjs").1 = "node" ∧
    (codexDetectRuntime "/w/a.ts").1 = "npx" ∧
    (boxliteDetectRuntime "/w/a.ts").2 = "bun" ∧
    (baseDetectRuntime "/w/a.py").1 = "python" ∧
    (baseDetectRuntime "/w/a.js").1 = "node" ∧
    (baseDetectRuntime "/w/a.mts").1 = "bun" :=
  ⟨(runScript_runtime_from_extension.1 "/w/a.py" (by decide)).1,
   (runScript_runtime_from_extension.2.1 "/w/a.mjs" (Or.inr (by decide))).1,
   (runScript_runtime_from_extension.2.2.1 "/w/a.ts" (Or.inl (by decide))).1,
   (runScript_runtime_from_extension.2.2.1 "/w/a.ts" (Or.inl (by decide))).2.2,
   runScript_runtime_from_extension.2.2.2.1 "/w/a.py" (by decide),
   runScript_runtime_from_extension.2.2.2.2.1 "/w/a.js" (Or.inl (by decide)),
   runScript_runtime_from_extension.2.2.2.2.2.1 "/w/a.mts" (Or.inr (by decide))⟩

/-- Claim C8 (counterexample): a Python script run through BoxLiteProvider
with a non-empty packages list — the trace contains no package-installation
action at all (the install step is guarded by `runtime !== 'python'`), yet
the script is executed. -/
theorem boxlite_runScript_skips_python_install :
    ((boxliteRunScript true "/work/s.py" "/work"
        (some { args := none, env := none, timeout := none, packages := some ["requests"] })
        { stdout := "", stderr := "", exitCode := 0 } "" (fun _ => false)
        initBLProvState 10).2.2.all
      (fun a => match a with | BAct.npmInstallIn _ _ => false | _ => true) = true) ∧
    BAct.runScriptIn 0 "python" "/work/s.py" ∈
      (boxliteRunScript true "/work/s.py" "/work"
        (some { args := none, env := none, timeout := none, packages := some ["requests"] })
        { stdout := "", stderr := "", exitCode := 0 } "" (fun _ => false)
        initBLProvState 10).2.2 := by
  constructor <;> decide

/-- Claim C8 (amended): CodexProvider installs declared packages before the
sandboxed spawn and, when installation fails, returns exit code 1 with a
stderr describing the failure without ever spawning the script; on success
the install action strictly precedes the spawn.  BoxLiteProvider runs the
npm install action immediately before the script for non-Python scripts but
ignores the installation outcome entirely (the script runs regardless), and
for Python scripts never installs anything while still running the script. -/
theorem runScript_package_install_behaviour :
    (∀ cp p w (opts : ScriptOptions) pk m outStd outErr t oc e,
      opts.packages = some pk → pk ≠ [] →
      codexRunScript (some cp) p w (some opts) (Except.error m) outStd outErr t oc e =
        ({ stdout := "", stderr := "Failed to install packages: " ++ m
           exitCode := 1, duration := e },
         [if (codexDetectRuntime p).2.2 then CAct.pipInstall pk else CAct.npmInstall pk])) ∧
    (∀ cp p w (opts : ScriptOptions) pk outStd outErr t code e,
      opts.packages = some pk → pk ≠ [] →
      (codexRunScript (some cp) p w (some opts) (Except.ok ()) outStd outErr t
          (ProcOutcome.closed code) e).2 =
        [(if (codexDetectRuntime p).2.2 then CAct.pipInstall pk else CAct.npmInstall pk),
         CAct.spawnScript (codexDetectRuntime p).1
           ((codexDetectRuntime p).2.1 ++ (opts.args.getD []))]) ∧
    (∀ p w (opts : ScriptOptions) pk rr ls catOk s e,
      opts.packages = some pk → pk ≠ [] → (boxliteDetectRuntime p).2 ≠ "python" →
      ∃ bid pre post,
        (boxliteRunScript true p w (some opts) rr ls catOk s e).2.2 =
          pre ++ BAct.npmInstallIn bid pk ::
            BAct.runScriptIn bid (boxliteDetectRuntime p).2 p :: post) ∧
    (∀ p w (opts : ScriptOptions) rr ls catOk s e,
      (boxliteDetectRuntime p).2 = "python" →
      (∀ bid pkgs, BAct.npmInstallIn bid pkgs ∉
        (boxliteRunScript true p w (some opts) rr ls catOk s e).2.2) ∧
      (∃ bid, BAct.runScriptIn bid "python" p ∈
        (boxliteRunScript true p w (some opts) rr ls catOk s e).2.2)) := by
  refine ⟨?_, ?_, ?_, ?_⟩
  · intro cp p w opts pk m outStd outErr t oc e hpk hne
    have hlen : pk.length > 0 := List.length_pos.mpr hne
    simp [codexRunScript, hpk, hlen]
  · intro cp p w opts pk outStd outErr t code e hpk hne
    have hlen : pk.length > 0 := List.length_pos.mpr hne
    simp [codexRunScript, hpk, hlen]
  · intro p w opts pk rr ls catOk s e hpk hne hrt
    have hlen : pk.length > 0 := List.length_pos.mpr hne
    rcases hb : s.box with _ | b
    · refine ⟨s.nextId,
        [BAct.createBox s.nextId (boxliteDetectRuntime p).1, BAct.boxReadyCheck s.nextId],
        BAct.listFilesIn s.nextId ::
          (syncFiles w (jsBasename p) ls).flatMap
            (fun f => BAct.catFileIn s.nextId f :: (if catOk f then [BAct.hostWrite f] else [])),
        ?_⟩
      simp [boxliteRunScript, getOrCreateBox, hb, hpk, hlen, hrt]
    · refine ⟨s.nextId,
        [BAct.stopBox b, BAct.createBox s.nextId (boxliteDetectRuntime p).1,
         BAct.boxReadyCheck s.nextId],
        BAct.listFilesIn s.nextId ::
          (syncFiles w (jsBasename p) ls).flatMap
            (fun f => BAct.catFileIn s.nextId f :: (if catOk f then [BAct.hostWrite f] else [])),
        ?_⟩
      simp [boxliteRunScript, getOrCreateBox, hb, hpk, hlen, hrt]
  · intro p w opts rr ls catOk s e hpy
    constructor
    · intro bid pkgs hmem
      rcases hb : s.box with _ | b <;>
        simp [boxliteRunScript, getOrCreateBox, hb, hpy, List.mem_flatMap, syncFiles] at hmem
    · rcases hb : s.box with _ | b <;>
        refine ⟨s.nextId, ?_⟩ <;>
        simp [boxliteRunScript, getOrCreateBox, hb, hpy]

/-- Witness for the amended C8 theorem: a failing npm install on codex for a
JavaScript script, and the install-before-run trace on boxlite. -/
theorem runScript_package_install_behaviour_witness :
    codexRunScript (some "/usr/bin/codex") "/w/a.js" "/w"
        (some { args := none, env := none, timeout := none, packages := some ["left-pad"] })
        (Except.error "npm install failed") "" "" false (ProcOutcome.closed (some 0)) 7 =
      ({ stdout := "", stderr := "Failed to install packages: npm install failed"
         exitCode := 1, duration := 7 },
       [if (codexDetectRuntime "/w/a.js").2.2 then CAct.pipInstall ["left-pad"]
        else CAct.npmInstall ["left-pad"]]) ∧
    (∃ bid pre post,
      (boxliteRunScript true "/w/a.js" "/w"
          (some { args := none, env := none, timeout := none, packages := some ["left-pad"] })
          { stdout := "", stderr := "", exitCode := 0 } "" (fun _ => false)
          initBLProvState 7).2.2 =
        pre ++ BAct.npmInstallIn bid ["left-pad"] ::
          BAct.runScriptIn bid (boxliteDetectRuntime "/w/a.js").2 "/w/a.js" :: post) :=
  ⟨runScript_package_install_behaviour.1 "/usr/bin/codex" "/w/a.js" "/w"
      { args := none, env := none, timeout := none, packages := some ["left-pad"] }
      ["left-pad"] "npm install failed" "" "" false (ProcOutcome.closed (some 0)) 7
      rfl (by decide),
   runScript_package_install_behaviour.2.2.1 "/w/a.js" "/w"
      { args := none, env := none, timeout := none, packages := some ["left-pad"] }
      ["left-pad"] { stdout := "", stderr := "", exitCode := 0 } "" (fun _ => false)
      initBLProvState 7 rfl (by decide) (by decide)⟩

/-- Claim C9: a BoxLiteProvider owns at most one live box at any point of any
of its operations (measured along the action trace), getOrCreateBox stops the
existing box before creating one with a different image, runScript stops the
current box first when one is held, and after stop() the provider holds no
box and its box is no longer live. -/
theorem boxlite_single_live_box (s : BLProvState) :
    (∀ ml image, maxLive s.box.toList (getOrCreateBox ml image s).2.1 ≤ 1) ∧
    (∀ image b, s.box = some b → s.currentImage ≠ image →
      (getOrCreateBox true image s).2.1 =
        [BAct.stopBox b, BAct.createBox s.nextId image, BAct.boxReadyCheck s.nextId]) ∧
    (∀ ml p w o rr ls catOk e,
      maxLive s.box.toList (boxliteRunScript ml p w o rr ls catOk s e).2.2 ≤ 1) ∧
    (∀ p w o rr ls catOk e b, s.box = some b →
      ((boxliteRunScript true p w o rr ls catOk s e).2.2).head? = some (BAct.stopBox b)) ∧
    ((boxliteStop s).1.box = none ∧ liveAfter s.box.toList (boxliteStop s).2 = []) := by
  have hsync : ∀ (bid : Nat) (w sb ls : String) (catOk : String → Bool) (live : List Nat),
      maxLive live ((syncFiles w sb ls).flatMap
        (fun f => BAct.catFileIn bid f :: (if catOk f then [BAct.hostWrite f] else []))) =
      live.length := by
    intro bid w sb ls catOk live
    exact maxLive_neutral _ _ (fun a ha => sync_trace_neutral ha)
  refine ⟨?_, ?_, ?_, ?_, ?_⟩
  · intro ml image
    rcases hb : s.box with _ | b <;> cases ml <;>
      by_cases him : s.currentImage = image <;>
      simp [getOrCreateBox, hb, him, maxLive, applyBAct]
  · intro image b hb him
    simp [getOrCreateBox, hb, him]
  · intro ml p w o rr ls catOk e
    rcases hb : s.box with _ | b <;> cases ml <;>
      by_cases hic : ((((o.bind (fun x => x.packages)).getD []).length > 0 ∧
        (boxliteDetectRuntime p).2 ≠ "python")) <;>
      simp [boxliteRunScript, getOrCreateBox, hb, hic, maxLive, applyBAct, hsync]
  · intro p w o rr ls catOk e b hb
    by_cases hic : ((((o.bind (fun x => x.packages)).getD []).length > 0 ∧
        (boxliteDetectRuntime p).2 ≠ "python")) <;>
      simp [boxliteRunScript, getOrCreateBox, hb, hic]
  · rcases hb : s.box with _ | b <;>
      simp [boxliteStop, liveAfter, applyBAct, hb]

/-- Witness for C9: a provider holding box 7 with the node image, asked for a
python image box, stops box 7 before creating box 8. -/
theorem boxlite_single_live_box_witness :
    (getOrCreateBox true "python:3.11-slim"
        { config := defaultBLConfig, volumes := [], box := some 7
          currentImage := "node:18-alpine", nextId := 8 }).2.1 =
      [BAct.stopBox 7, BAct.createBox 8 "python:3.11-slim", BAct.boxReadyCheck 8] :=
  (boxlite_single_live_box
    { config := defaultBLConfig, volumes := [], box := some 7
      currentImage := "node:18-alpine", nextId := 8 }).2.1
    "python:3.11-slim" 7 rfl (by decide)

/-- Claim C10: every host write performed by BoxLiteProvider.runScript's
copy-back synchronization targets a path that starts with workDir and does
not end with the script's basename; in particular the host copy of the
script itself is never overwritten. -/
theorem boxlite_sync_writes_confined (ml : Bool) (filePath workDir : String)
    (options : Option ScriptOptions) (rr : BoxRes) (ls : String)
    (catOk : String → Bool) (s : BLProvState) (e : Nat) (p : String)
    (h : BAct.hostWrite p ∈ (boxliteRunScript ml filePath workDir options rr ls catOk s e).2.2) :
    jsStartsWith p workDir = true ∧ jsEndsWith p (jsBasename filePath) = false ∧
    p ≠ filePath := by
  have hp : p ∈ syncFiles workDir (jsBasename filePath) ls := by
    rcases hb : s.box with _ | b <;> cases ml <;>
      simp [boxliteRunScript, getOrCreateBox, hb, List.mem_flatMap] at h <;>
      exact h.1
  obtain ⟨-, hstart, hend⟩ := mem_syncFiles hp
  refine ⟨hstart, hend, ?_⟩
  intro hpe
  rw [hpe] at hend
  rw [jsEndsWith_basename filePath] at hend
  simp at hend

/-- Witness for C10: a produced output file under /w is synced while the
script /w/s.py itself is excluded. -/
theorem boxlite_sync_writes_confined_witness :
    jsStartsWith "/w/out.txt" "/w" = true ∧
    jsEndsWith "/w/out.txt" (jsBasename "/w/s.py") = false ∧
    "/w/out.txt" ≠ "/w/s.py" :=
  boxlite_sync_writes_confined true "/w/s.py" "/w" none
    { stdout := "", stderr := "", exitCode := 0 } "/w/out.txt" (fun _ => true)
    initBLProvState 4 "/w/out.txt" (by decide)

end Workany
